import Mathlib

/-!
Verification of the duplicate-avoidance core of the sundaypubwalks bot.

The development shallowly embeds the JavaScript sources:
  - src/services/caption.js  : getUsedPubs, generateWalk, formatWalkData,
    generateBestWalk, buildCaption, validateCaption
  - src/services/weather.js  : fetchWeatherSummary, getMockWeather
  - src/services/instagram.js: postToInstagram, logPost
  - src/index.js             : publishSundayWalkPost

External collaborators (the AI model, the weather and image HTTP calls,
the Instagram Graph API, the filesystem, the clock and Math.random) are
modelled as explicit environment inputs; JavaScript truthiness of
possibly-absent values is modelled with Option.
-/

namespace SundayPubWalks

/-! ## JavaScript value helpers -/

/-- Truthiness of a possibly-absent string: absent, null and the empty
string are falsy. -/
def jsTruthyStr : Option String → Bool
  | none => false
  | some s => !(s == "")

/-- Truthiness of a possibly-absent number: absent, null and zero are
falsy. -/
def jsTruthyNum : Option Int → Bool
  | none => false
  | some n => !(n == 0)

/-- The list obtained from a JS Set built over a list: first occurrences,
in insertion order. -/
def jsSetDedup : List String → List String
  | [] => []
  | x :: xs => x :: (jsSetDedup xs).filter (fun y => !(y == x))

theorem mem_jsSetDedup (p : String) (l : List String) :
    p ∈ jsSetDedup l ↔ p ∈ l := by
  induction l with
  | nil => simp [jsSetDedup]
  | cons x xs ih =>
    by_cases hpx : p = x
    · subst hpx; simp [jsSetDedup]
    · simp [jsSetDedup, List.mem_filter, hpx, ih]

/-! ## Data model -/

/-- Coordinates as parsed from the AI response; each component may be
absent. -/
structure Coords where
  lat : Option Int
  lng : Option Int
deriving DecidableEq, Repr

/-- The raw structured AI response (the JSON object of caption.js); every
field may be absent or null in an arbitrary response. -/
structure WalkData where
  walk_title : Option String
  area : Option String
  area_short : Option String
  start_point : Option String
  end_pub_name : Option String
  end_pub_handle : Option String
  distance_km : Option Int
  duration_minutes : Option Int
  terrain : Option String
  difficulty : Option String
  highlights : Option (List String)
  landmarks_for_prompt : Option (List String)
  dog_friendly : Option Bool
  kid_friendly : Option Bool
  pram_friendly : Option Bool
  best_for : Option String
  seasonality : Option String
  location_coords : Option Coords
  directions : Option (List String)
  pub_description : Option String
deriving DecidableEq, Repr

/-- A validated walk as returned by formatWalkData: the raw data plus the
generated id and slug metadata. -/
structure Walk where
  id : String
  slug : String
  data : WalkData
deriving DecidableEq, Repr

/-- One record of logs/posts.jsonl as written by logPost. -/
structure PostLogEntry where
  timestamp : String
  walkId : String
  walkTitle : Option String
  slug : String
  pubName : Option String
  area : Option String
  instagramPostId : String
  success : Bool
deriving DecidableEq, Repr

/-- One line of the log file: a well-formed JSON record or a malformed
line that JSON.parse rejects. -/
inductive LogLine
  | entry (e : PostLogEntry)
  | malformed
deriving DecidableEq, Repr

/-- The log file: none models a file that cannot be read (absent or
unreadable); some gives its lines. -/
abbrev LogFile : Type := Option (List LogLine)

/-- Errors raised inside the walk generator. -/
inductive GenError
  | aiFailure
  | typeError
  | missingField (f : String)
  | invalidCoords
  | tooFewHighlights
  | tooFewDirections
  | exhaustedRetries
  | allOptionsExhausted
deriving DecidableEq, Repr

/-- Outcome of one call to the AI collaborator: a parsed structured
response, or a transport or JSON-parse failure. -/
inductive AIResult
  | ok (wd : WalkData)
  | fail
deriving DecidableEq, Repr

/-! ## Post Log operations (caption.js getUsedPubs, instagram.js logPost) -/

/-- The entry carried by a log line, when well formed. -/
def lineEntry : LogLine → Option PostLogEntry
  | .entry e => some e
  | .malformed => none

/-- Whether a log line is malformed. -/
def lineMalformed : LogLine → Bool
  | .entry _ => false
  | .malformed => true

/-- Appending one record to the log file (fs.appendFile creates the file
when absent). -/
def appendLog (e : PostLogEntry) : LogFile → LogFile
  | none => some [.entry e]
  | some ls => some (ls ++ [.entry e])

/-- getUsedPubs of caption.js: read the log, JSON.parse each line, keep
the distinct truthy pubName values; any read or parse failure yields the
empty list. -/
def getUsedPubs : LogFile → List String
  | none => []
  | some ls =>
    if ls.any lineMalformed then []
    else
      jsSetDedup
        ((((ls.filterMap lineEntry).map PostLogEntry.pubName).filterMap id).filter
          (fun s => !(s == "")))

/-- The pubName values of the well-formed entries of a log file. -/
def logPubNames : LogFile → List String
  | none => []
  | some ls => ((ls.filterMap lineEntry).map PostLogEntry.pubName).filterMap id

/-! ## Slug derivation (formatWalkData of caption.js) -/

/-- Characters kept by the slug regex [a-z0-9]. -/
def isSlugChar (c : Char) : Bool :=
  (('a' ≤ c) && (c ≤ 'z')) || (('0' ≤ c) && (c ≤ '9'))

/-- Replace each maximal run of non-slug characters with a single dash
(the g-flagged replace of [^a-z0-9]+ by a dash). -/
def collapseRuns : List Char → List Char
  | [] => []
  | c :: cs =>
    let rest := collapseRuns cs
    if isSlugChar c then c :: rest
    else
      match rest with
      | '-' :: _ => rest
      | _ => '-' :: rest

/-- Remove one leading and one trailing dash (the replace of the anchored
dash alternation by the empty string). -/
def stripEdgeDashes (l : List Char) : List Char :=
  let l1 := match l with
    | '-' :: rest => rest
    | other => other
  match l1.reverse with
  | '-' :: rest => rest.reverse
  | _ => l1

/-- The slug of a walk title: lowercase, collapse non-alphanumeric runs to
dashes, strip edge dashes. -/
def mkSlug (t : String) : String :=
  String.mk (stripEdgeDashes (collapseRuns (t.data.map Char.toLower)))

/-! ## formatWalkData (caption.js) -/

/-- formatWalkData of caption.js: attach id and slug metadata, then check
required fields, coordinates, and minimum highlight and direction counts.
Deriving the slug dereferences walk_title, so an absent title raises a
TypeError before the required-field loop runs. -/
def formatWalkData (now : Nat) (walkData : WalkData) : Except GenError Walk :=
  match walkData.walk_title with
  | none => .error .typeError
  | some t =>
    if !jsTruthyStr walkData.walk_title then .error (.missingField "walk_title")
    else if !jsTruthyStr walkData.area then .error (.missingField "area")
    else if !jsTruthyStr walkData.area_short then .error (.missingField "area_short")
    else if !jsTruthyStr walkData.start_point then .error (.missingField "start_point")
    else if !jsTruthyStr walkData.end_pub_name then .error (.missingField "end_pub_name")
    else if !jsTruthyNum walkData.distance_km then .error (.missingField "distance_km")
    else if !jsTruthyNum walkData.duration_minutes then .error (.missingField "duration_minutes")
    else if walkData.highlights.isNone then .error (.missingField "highlights")
    else if walkData.landmarks_for_prompt.isNone then .error (.missingField "landmarks_for_prompt")
    else if walkData.location_coords.isNone then .error (.missingField "location_coords")
    else if walkData.directions.isNone then .error (.missingField "directions")
    else if !jsTruthyNum ((walkData.location_coords.getD { lat := none, lng := none }).lat)
        || !jsTruthyNum ((walkData.location_coords.getD { lat := none, lng := none }).lng) then
      .error .invalidCoords
    else if (walkData.highlights.getD []).length < 2 then .error .tooFewHighlights
    else if (walkData.directions.getD []).length < 4 then .error .tooFewDirections
    else .ok { id := "walk-" ++ toString now, slug := mkSlug t, data := walkData }

/-! ## generateWalk (caption.js): the bounded-retry dedup core -/

/-- The body of generateWalk at one attempt, structurally recursive on the
remaining budget. fuel stands for maxAttempts + 1 - attempt, so fuel = 0
is exactly the guard attempt > maxAttempts. Each attempt reads the used
pubs afresh, makes one AI call, retries on a pub collision, and otherwise
validates via formatWalkData; the second component counts AI calls. -/
def generateWalkAux (ai : Nat → AIResult) (log : LogFile) (now : Nat) :
    Nat → Nat → Except GenError Walk × Nat
  | 0, _ => (.error .exhaustedRetries, 0)
  | fuel + 1, attempt =>
    match ai attempt with
    | .fail => (.error .aiFailure, 1)
    | .ok walkData =>
      if (match walkData.end_pub_name with
          | some p => (getUsedPubs log).contains p
          | none => false) then
        ((generateWalkAux ai log now fuel (attempt + 1)).1,
         (generateWalkAux ai log now fuel (attempt + 1)).2 + 1)
      else
        match formatWalkData now walkData with
        | .ok walk => (.ok walk, 1)
        | .error e => (.error e, 1)

/-- generateWalk of caption.js, with the AI collaborator, the log file and
the clock passed explicitly; returns the outcome together with the number
of AI calls made. -/
def generateWalk (ai : Nat → AIResult) (log : LogFile) (now : Nat)
    (maxAttempts : Nat) (attempt : Nat) : Except GenError Walk × Nat :=
  generateWalkAux ai log now (maxAttempts + 1 - attempt) attempt

/-! ## generateBestWalk (caption.js): the best-of-N selector -/

/-- The outcomes of the n sequential generator runs of generateBestWalk,
each run consuming the AI responses after those of the previous runs. -/
def bestWalkRuns (ai : Nat → AIResult) (log : LogFile) (now : Nat) :
    Nat → Nat → List (Except GenError Walk × Nat)
  | 0, _ => []
  | k + 1, base =>
    generateWalk (fun m => ai (base + m)) log now 5 1 ::
      bestWalkRuns ai log now k
        (base + (generateWalk (fun m => ai (base + m)) log now 5 1).2)

/-- The accumulation loop of generateBestWalk: a run that throws is caught
and skipped; a successful run appends its walk. -/
def generateBestWalkLoop (ai : Nat → AIResult) (log : LogFile) (now : Nat) :
    Nat → Nat → List Walk → List Walk
  | 0, _, walks => walks
  | k + 1, base, walks =>
    match (generateWalk (fun m => ai (base + m)) log now 5 1).1 with
    | .ok w =>
      generateBestWalkLoop ai log now k
        (base + (generateWalk (fun m => ai (base + m)) log now 5 1).2) (walks ++ [w])
    | .error _ =>
      generateBestWalkLoop ai log now k
        (base + (generateWalk (fun m => ai (base + m)) log now 5 1).2) walks

/-- generateBestWalk of caption.js: run the generator options times,
collect the successes, fail when none succeeded, otherwise return the
first success. -/
def generateBestWalk (ai : Nat → AIResult) (log : LogFile) (now : Nat)
    (options : Nat) : Except GenError Walk :=
  match generateBestWalkLoop ai log now options 0 [] with
  | [] => .error .allOptionsExhausted
  | w :: _ => .ok w

/-! ## Caption building (caption.js) -/

/-- A weather summary as consumed by the caption builder. -/
structure Weather where
  summary : String
  tip : String
deriving DecidableEq, Repr

/-- An apostrophe, as a string. -/
def apos : String := String.singleton (Char.ofNat 39)

/-- JS template interpolation of a possibly-absent string (null prints as
the word null; undefined similarly prints as a word). -/
def jsInterp : Option String → String
  | none => "null"
  | some s => s

/-- JS template interpolation of a possibly-absent number. -/
def jsInterpNum : Option Int → String
  | none => "null"
  | some n => toString n

/-- toFixed(1) of an integer-valued JS number. -/
def intToFixed1 (n : Int) : String := toString n ++ ".0"

/-- buildCaption of caption.js: the Instagram caption template. The
pipeline only calls it on validated walks, whose numeric and list fields
are present (in the source an absent distance or highlights list would be
a TypeError), so those fields are read with a default. -/
def buildCaption (walk : Walk) (weather : Weather) : String :=
  let highlightLines :=
    String.intercalate "\n"
      (((walk.data.highlights.getD []).take 3).map (fun h => "• " ++ h))
  let directionsText :=
    String.intercalate "\n"
      (((walk.data.directions.getD []).enum).map
        (fun st => toString (st.1 + 1) ++ ". " ++ st.2))
  "🥾 SUNDAY PUB WALK: " ++ jsInterp walk.data.walk_title ++ "\n\n" ++
  "📍 Area: " ++ jsInterp walk.data.area_short ++ "\n" ++
  "⏱️ About " ++ jsInterpNum walk.data.duration_minutes ++ " mins · " ++
    intToFixed1 (walk.data.distance_km.getD 0) ++ " km\n" ++
  "🍻 Pub finish: " ++ jsInterp walk.data.end_pub_name ++ " " ++
    jsInterp walk.data.end_pub_handle ++ "\n\n" ++
  "🌤 This Sunday" ++ apos ++ "s weather in " ++ jsInterp walk.data.area_short ++
    ":\n" ++ weather.summary ++ "\n" ++
  "Tip: " ++ weather.tip ++ "\n\n" ++
  "Why you" ++ apos ++ "ll love it:\n" ++ highlightLines ++ "\n\n" ++
  "Perfect for: " ++ jsInterp walk.data.best_for ++ "\n\n" ++
  "Tag your Sunday crew & save this for later ❤️\n\n" ++
  "————————\n" ++
  "🗺️ How to do the walk:\n\n" ++
  "Start at: " ++ jsInterp walk.data.start_point ++ "\n\n" ++
  directionsText ++ "\n\n" ++
  "Always check local signs and paths on the day, and take a map app as backup. 🍺"

/-- validateCaption of caption.js: the 2200-character Instagram limit; an
over-limit caption only earns a warning. -/
def validateCaption (caption : String) : Bool :=
  if caption.length > 2200 then false else true

/-! ## postToInstagram and logPost (instagram.js) -/

/-- The publish result returned by the Graph API. -/
structure PubResult where
  id : String
deriving DecidableEq, Repr

/-- Environment of postToInstagram: the credentials and the outcomes of
the two Graph API calls. -/
structure IgEnv where
  accessToken : Option String
  accountId : Option String
  createResult : Except Unit String
  publishResult : Except Unit PubResult

/-- Errors raised by postToInstagram. -/
inductive PublishError
  | credsNotConfigured
  | createFailed
  | publishFailed
deriving DecidableEq, Repr

/-- postToInstagram of instagram.js: check credentials, create a media
container, then publish it; each phase may fail independently and the
error is re-thrown. -/
def postToInstagram (env : IgEnv) : Except PublishError PubResult :=
  if !jsTruthyStr env.accessToken || !jsTruthyStr env.accountId then
    .error .credsNotConfigured
  else
    match env.createResult with
    | .error _ => .error .createFailed
    | .ok _containerId =>
      match env.publishResult with
      | .error _ => .error .publishFailed
      | .ok result => .ok result

/-- The record logPost writes for a published walk. -/
def mkLogEntry (nowIso : String) (walk : Walk) (result : PubResult) :
    PostLogEntry :=
  { timestamp := nowIso
    walkId := walk.id
    walkTitle := walk.data.walk_title
    slug := walk.slug
    pubName := walk.data.end_pub_name
    area := walk.data.area_short
    instagramPostId := result.id
    success := true }

/-- logPost of instagram.js: append one record to the log; a filesystem
failure (appendOk false) is caught and swallowed, leaving the log
unchanged. -/
def logPost (appendOk : Bool) (nowIso : String) (walk : Walk)
    (result : PubResult) (log : LogFile) : LogFile :=
  if appendOk then appendLog (mkLogEntry nowIso walk result) log else log

/-! ## fetchWeatherSummary (weather.js, the second segment of src/image.js) -/

/-- One slot of the 5-day forecast response. The dt-derived wall-clock
comparisons of the source (forecast date equals next Sunday, hour between
11 and 13) and the caption strings formatWeatherData derives from the
slot's floating-point fields (rounded temperatures, wind speed in mph,
precipitation thresholds) are computed at the model boundary and supplied
with the slot, because wall-clock time and JS float arithmetic are outside
the embedding. -/
structure ForecastSlot where
  sameDayAsNextSunday : Bool
  middayHour : Bool
  formatted : Weather
deriving DecidableEq, Repr

/-- Environment of fetchWeatherSummary: the OpenWeatherMap API key, the
outcome of the axios forecast request, and the Math.random draw used by
getMockWeather. -/
structure WeatherEnv where
  apiKey : Option String
  forecast : Except Unit (List ForecastSlot)
  randomIndex : Nat

/-- The fallback table of getMockWeather in weather.js. -/
def mockWeatherConditions : List Weather :=
  [{ summary := "Cool and bright, 11°C with sunny spells"
     tip := "Pack a layer and maybe some waterproof boots." },
   { summary := "Mild and partly cloudy, 15°C"
     tip := "Perfect walking weather – just bring a light jacket." },
   { summary := "Crisp and clear, 8°C"
     tip := "Pack warm layers and gloves – it" ++ apos ++ "ll be chilly in the shade." },
   { summary := "Grey but dry, 13°C"
     tip := "Overcast but comfortable – a jumper should do it." },
   { summary := "Light rain expected, 10°C"
     tip := "Waterproofs and boots essential – embrace the mud!" }]

/-- getMockWeather of weather.js: one random entry of the table.
Math.floor(Math.random() times the length) is always in range; the
environment supplies an arbitrary draw, reduced modulo the length at the
boundary. -/
def getMockWeather (randomIndex : Nat) : Weather :=
  mockWeatherConditions.getD (randomIndex % mockWeatherConditions.length)
    { summary := "", tip := "" }

/-- fetchWeatherSummary of weather.js: destructuring location_coords of a
walk without coordinates raises a TypeError (the error branch); otherwise
a missing API key, a failed request, and an empty Sunday forecast all fall
back to mock weather, and the midday slot (or the first Sunday slot) is
formatted. The lat and lng values only feed the HTTP request and do not
influence the modelled outcome. -/
def fetchWeatherSummary (env : WeatherEnv) (walk : Walk) : Except Unit Weather :=
  match walk.data.location_coords with
  | none => .error ()
  | some _ =>
    .ok
      (if !jsTruthyStr env.apiKey then getMockWeather env.randomIndex
       else
         match env.forecast with
         | .error _ => getMockWeather env.randomIndex
         | .ok list =>
           match list.filter (fun f => f.sameDayAsNextSunday) with
           | [] => getMockWeather env.randomIndex
           | f0 :: rest =>
             match (f0 :: rest).find? (fun f => f.middayHour) with
             | some f => f.formatted
             | none => f0.formatted)

/-! ## publishSundayWalkPost (index.js) -/

/-- The generated illustration: public URL and local path. -/
structure ImageInfo where
  url : String
  localPath : String
deriving DecidableEq, Repr

/-- The environment of one pipeline run: the AI response stream, the
clock, NODE_ENV, the weather environment, the image-generation outcome,
the Instagram environment, and whether the caption file write and the log
append succeed. -/
structure RunEnv where
  ai : Nat → AIResult
  now : Nat
  nowIso : String
  nodeEnv : Option String
  weatherEnv : WeatherEnv
  imageResult : Except Unit ImageInfo
  igEnv : IgEnv
  captionWriteOk : Bool
  appendOk : Bool

/-- The caption file path of the development branch: the image path with a
case-insensitive .png suffix replaced by -caption.txt (the anchored regex
replace of index.js). -/
def captionPathOf (localPath : String) : String :=
  if (localPath.data.reverse.take 4).map Char.toLower = ['g', 'n', 'p', '.'] then
    String.mk (localPath.data.take (localPath.data.length - 4)) ++ "-caption.txt"
  else localPath

/-- Fatal errors of one pipeline run. weatherFailed is the TypeError
raised when fetchWeatherSummary destructures absent coordinates;
captionWriteFailed is a rejected caption-file write in the development
branch; both re-throw through the outer catch of index.js. -/
inductive RunError
  | gen (e : GenError)
  | weatherFailed
  | imageFailed
  | captionWriteFailed
  | publish (e : PublishError)
deriving DecidableEq, Repr

/-- The success record returned by publishSundayWalkPost (both variants
carry success true in the source). -/
inductive RunResult
  | development (walk : Option String) (image : String)
  | production (walk : Option String) (postId : String)
deriving DecidableEq, Repr

/-- publishSundayWalkPost of index.js: generate a walk, fetch weather,
build and length-check the caption, generate the image, then either stop
in development mode (writing the caption file for review, whose failure
re-throws), or publish and, only on publish success, log the post.
Returns the outcome and the resulting log file. -/
def publishSundayWalkPost (env : RunEnv) (log : LogFile) :
    Except RunError RunResult × LogFile :=
  match generateBestWalk env.ai log env.now 1 with
  | .error e => (.error (.gen e), log)
  | .ok walk =>
    match fetchWeatherSummary env.weatherEnv walk with
    | .error _ => (.error .weatherFailed, log)
    | .ok weather =>
      let caption := buildCaption walk weather
      let _isValid := validateCaption caption
      match env.imageResult with
      | .error _ => (.error .imageFailed, log)
      | .ok image =>
        if env.nodeEnv = some "development" then
          let _captionPath := captionPathOf image.localPath
          if env.captionWriteOk then
            (.ok (.development walk.data.walk_title image.localPath), log)
          else (.error .captionWriteFailed, log)
        else
          match postToInstagram env.igEnv with
          | .error pe => (.error (.publish pe), log)
          | .ok result =>
            (.ok (.production walk.data.walk_title result.id),
              logPost env.appendOk env.nowIso walk result log)

/-- A sequence of pipeline runs, each reading the log left by the
previous one. -/
def runAll : List RunEnv → LogFile → LogFile
  | [], log => log
  | env :: rest, log => runAll rest (publishSundayWalkPost env log).2

/-! ## Concrete sample data -/

/-- A fully valid AI response ending at the given pub. -/
def wdOf (pub : String) : WalkData :=
  { walk_title := some "Heath to Hearth"
    area := some "Hampstead Heath, North London"
    area_short := some "Hampstead"
    start_point := some "Hampstead tube station"
    end_pub_name := some pub
    end_pub_handle := none
    distance_km := some 5
    duration_minutes := some 75
    terrain := some "gentle paths"
    difficulty := some "easy"
    highlights := some ["Parliament Hill views", "Kenwood House", "A cosy pub finish"]
    landmarks_for_prompt := some ["Parliament Hill", "Kenwood House", "the ponds"]
    dog_friendly := some true
    kid_friendly := some true
    pram_friendly := some false
    best_for := some "A classic heath ramble"
    seasonality := some "Crisp air and cosy fires"
    location_coords := some { lat := some 51, lng := some (-1) }
    directions := some ["Start at the tube", "Climb Parliament Hill",
      "Cross to Kenwood", "Descend to the pub"]
    pub_description := some "A storied heathside tavern" }

/-- A structurally invalid AI response (too few highlights) ending at the
given pub. -/
def wdInvalidOf (pub : String) : WalkData :=
  { wdOf pub with highlights := some ["Only one highlight"] }

/-- The validated walk formatWalkData builds from wdOf at time 0. -/
def walkOf (pub : String) : Walk :=
  { id := "walk-0", slug := "heath-to-hearth", data := wdOf pub }

/-- A log entry for The Crown. -/
def crownEntry : PostLogEntry :=
  { timestamp := "2025-12-28T10:00:00Z", walkId := "walk-9", walkTitle := some "Crown Loop"
    slug := "crown-loop", pubName := some "The Crown", area := some "Highgate"
    instagramPostId := "post-9", success := true }

/-- A log entry for The Anchor. -/
def anchorEntry : PostLogEntry :=
  { timestamp := "2026-01-04T10:00:00Z", walkId := "walk-0", walkTitle := some "Heath to Hearth"
    slug := "heath-to-hearth", pubName := some "The Anchor", area := some "Hampstead"
    instagramPostId := "post-1", success := true }

/-- A log already holding The Crown. -/
def logCrown : LogFile := some [.entry crownEntry]

/-- An AI collaborator that always returns the same response. -/
def aiConst (wd : WalkData) : Nat → AIResult := fun _ => .ok wd

/-- An AI collaborator whose first response is the invalid Crown walk and
whose later responses are the valid Anchor walk. -/
def aiBadThenGood : Nat → AIResult := fun n =>
  if n = 1 then .ok (wdInvalidOf "The Crown") else .ok (wdOf "The Anchor")

/-- An AI collaborator that always fails at transport level. -/
def aiFail : Nat → AIResult := fun _ => .fail

/-- An AI collaborator failing on its first two calls and succeeding
afterwards. -/
def aiFailTwice : Nat → AIResult := fun n =>
  if n ≤ 2 then .fail else .ok (wdOf "The Anchor")

/-- A weather environment without an API key: fetchWeatherSummary falls
back to mock weather. -/
def weatherEnv0 : WeatherEnv :=
  { apiKey := none, forecast := .error (), randomIndex := 1 }

/-- A fixed generated illustration. -/
def image0 : ImageInfo :=
  { url := "https://example.org/images/walk.png", localPath := "generated/walk.png" }

/-- A working Instagram environment. -/
def igEnvOk : IgEnv :=
  { accessToken := some "token-1", accountId := some "acct-1"
    createResult := .ok "container-1", publishResult := .ok { id := "post-1" } }

/-- An Instagram environment whose container creation fails. -/
def igEnvFail : IgEnv :=
  { accessToken := some "token-1", accountId := some "acct-1"
    createResult := .error (), publishResult := .ok { id := "post-1" } }

/-- A pipeline environment using the Anchor AI stub and the given mode and
Instagram environment. -/
def envOf (nodeEnv : Option String) (ig : IgEnv) : RunEnv :=
  { ai := aiConst (wdOf "The Anchor"), now := 0, nowIso := "2026-01-04T10:05:00Z"
    nodeEnv := nodeEnv, weatherEnv := weatherEnv0, imageResult := .ok image0
    igEnv := ig, captionWriteOk := true, appendOk := true }

end SundayPubWalks

/-! ## Supporting lemmas -/

namespace SundayPubWalks

theorem jsTruthyStr_iff (o : Option String) :
    jsTruthyStr o = true ↔ ∃ s, o = some s ∧ s ≠ "" := by
  cases o with
  | none => simp [jsTruthyStr]
  | some s => simp [jsTruthyStr]

/-- Full case analysis of formatWalkData: success returns the input data
with a truthy pub name and present coordinates; failure raises a
validation error, never a retry or batch error. -/
theorem formatWalkData_inv (now : Nat) (wd : WalkData) (r : Except GenError Walk)
    (h : formatWalkData now wd = r) :
    (∃ w, r = .ok w ∧ w.data = wd ∧ jsTruthyStr wd.end_pub_name = true ∧
      wd.location_coords.isSome = true) ∨
    (∃ e, r = .error e ∧ e ≠ .exhaustedRetries ∧ e ≠ .allOptionsExhausted ∧
      e ≠ .aiFailure) := by
  unfold formatWalkData at h
  split at h
  · exact Or.inr ⟨.typeError, h.symm, by decide, by decide, by decide⟩
  · by_cases h1 : (!jsTruthyStr wd.walk_title) = true
    · rw [if_pos h1] at h
      exact Or.inr ⟨_, h.symm, by decide, by decide, by decide⟩
    · rw [if_neg h1] at h
      by_cases h2 : (!jsTruthyStr wd.area) = true
      · rw [if_pos h2] at h
        exact Or.inr ⟨_, h.symm, by decide, by decide, by decide⟩
      · rw [if_neg h2] at h
        by_cases h3 : (!jsTruthyStr wd.area_short) = true
        · rw [if_pos h3] at h
          exact Or.inr ⟨_, h.symm, by decide, by decide, by decide⟩
        · rw [if_neg h3] at h
          by_cases h4 : (!jsTruthyStr wd.start_point) = true
          · rw [if_pos h4] at h
            exact Or.inr ⟨_, h.symm, by decide, by decide, by decide⟩
          · rw [if_neg h4] at h
            by_cases h5 : (!jsTruthyStr wd.end_pub_name) = true
            · rw [if_pos h5] at h
              exact Or.inr ⟨_, h.symm, by decide, by decide, by decide⟩
            · rw [if_neg h5] at h
              by_cases h6 : (!jsTruthyNum wd.distance_km) = true
              · rw [if_pos h6] at h
                exact Or.inr ⟨_, h.symm, by decide, by decide, by decide⟩
              · rw [if_neg h6] at h
                by_cases h7 : (!jsTruthyNum wd.duration_minutes) = true
                · rw [if_pos h7] at h
                  exact Or.inr ⟨_, h.symm, by decide, by decide, by decide⟩
                · rw [if_neg h7] at h
                  by_cases h8 : wd.highlights.isNone = true
                  · rw [if_pos h8] at h
                    exact Or.inr ⟨_, h.symm, by decide, by decide, by decide⟩
                  · rw [if_neg h8] at h
                    by_cases h9 : wd.landmarks_for_prompt.isNone = true
                    · rw [if_pos h9] at h
                      exact Or.inr ⟨_, h.symm, by decide, by decide, by decide⟩
                    · rw [if_neg h9] at h
                      by_cases h10 : wd.location_coords.isNone = true
                      · rw [if_pos h10] at h
                        exact Or.inr ⟨_, h.symm, by decide, by decide, by decide⟩
                      · rw [if_neg h10] at h
                        by_cases h11 : wd.directions.isNone = true
                        · rw [if_pos h11] at h
                          exact Or.inr ⟨_, h.symm, by decide, by decide, by decide⟩
                        · rw [if_neg h11] at h
                          by_cases h12 :
                              (!jsTruthyNum
                                  ((wd.location_coords.getD
                                    { lat := none, lng := none }).lat)
                                || !jsTruthyNum
                                  ((wd.location_coords.getD
                                    { lat := none, lng := none }).lng)) = true
                          · rw [if_pos h12] at h
                            exact Or.inr ⟨_, h.symm, by decide, by decide, by decide⟩
                          · rw [if_neg h12] at h
                            by_cases h13 : (wd.highlights.getD []).length < 2
                            · rw [if_pos h13] at h
                              exact Or.inr ⟨_, h.symm, by decide, by decide, by decide⟩
                            · rw [if_neg h13] at h
                              by_cases h14 : (wd.directions.getD []).length < 4
                              · rw [if_pos h14] at h
                                exact Or.inr ⟨_, h.symm, by decide, by decide, by decide⟩
                              · rw [if_neg h14] at h
                                refine Or.inl ⟨_, h.symm, rfl, ?_, ?_⟩
                                · cases hx : jsTruthyStr wd.end_pub_name with
                                  | true => rfl
                                  | false => exact absurd (by rw [hx]; rfl) h5
                                · cases hlc : wd.location_coords with
                                  | none => exact absurd (by rw [hlc]; rfl) h10
                                  | some c => rfl

end SundayPubWalks

namespace SundayPubWalks

theorem generateWalkAux_calls_le (ai : Nat → AIResult) (log : LogFile) (now : Nat) :
    ∀ fuel attempt, (generateWalkAux ai log now fuel attempt).2 ≤ fuel := by
  intro fuel
  induction fuel with
  | zero => intro attempt; simp [generateWalkAux]
  | succ fuel ih =>
    intro attempt
    simp only [generateWalkAux]
    split
    · exact Nat.succ_le_succ (Nat.zero_le fuel)
    · split
      · exact Nat.succ_le_succ (ih (attempt + 1))
      · split
        · exact Nat.succ_le_succ (Nat.zero_le fuel)
        · exact Nat.succ_le_succ (Nat.zero_le fuel)

theorem generateWalkAux_ok_pub (ai : Nat → AIResult) (log : LogFile) (now : Nat) :
    ∀ fuel attempt w, (generateWalkAux ai log now fuel attempt).1 = .ok w →
      (∃ p, w.data.end_pub_name = some p ∧ p ≠ "" ∧ p ∉ getUsedPubs log) ∧
      w.data.location_coords.isSome = true := by
  intro fuel
  induction fuel with
  | zero => intro attempt w h; simp [generateWalkAux] at h
  | succ fuel ih =>
    intro attempt w h
    simp only [generateWalkAux] at h
    split at h
    · exact absurd h (by simp)
    · rename_i x wd heq
      split at h
      · exact ih (attempt + 1) w h
      · rename_i hcoll
        cases hfw : formatWalkData now wd with
        | error e => rw [hfw] at h; exact absurd h (by simp)
        | ok walk =>
          rw [hfw] at h
          have hww : walk = w := by simpa using h
          subst hww
          rcases formatWalkData_inv now wd _ hfw with
            ⟨w2, hw2, hdata, htr, hcoords⟩ | ⟨e, he, _, _, _⟩
          · injection hw2 with he2
            subst he2
            rcases (jsTruthyStr_iff wd.end_pub_name).1 htr with ⟨p, hp, hpne⟩
            refine ⟨⟨p, by rw [hdata]; exact hp, hpne, ?_⟩, by rw [hdata]; exact hcoords⟩
            intro hmem
            exact hcoll (by rw [hp]; simpa using hmem)
          · exact Except.noConfusion he

theorem generateWalkAux_all_used (ai : Nat → AIResult) (log : LogFile) (now : Nat) :
    ∀ fuel attempt,
      (∀ n, attempt ≤ n → n < attempt + fuel →
        ∃ wd p, ai n = .ok wd ∧ wd.end_pub_name = some p ∧ p ∈ getUsedPubs log) →
      generateWalkAux ai log now fuel attempt = (.error .exhaustedRetries, fuel) := by
  intro fuel
  induction fuel with
  | zero => intro attempt _; simp [generateWalkAux]
  | succ fuel ih =>
    intro attempt hstub
    rcases hstub attempt (Nat.le_refl _) (by omega) with ⟨wd, p, hai, hpn, hmem⟩
    simp only [generateWalkAux]
    split
    · rename_i heq
      rw [hai] at heq
      exact AIResult.noConfusion heq
    · rename_i x wd2 heq
      rw [hai] at heq
      injection heq with he
      subst he
      have hcond : (match wd.end_pub_name with
          | some q => (getUsedPubs log).contains q
          | none => false) = true := by
        rw [hpn]
        simpa using hmem
      rw [if_pos hcond]
      have hrec := ih (attempt + 1) (by
        intro n h1 h2
        exact hstub n (by omega) (by omega))
      rw [hrec]

end SundayPubWalks

namespace SundayPubWalks

theorem bestWalkRuns_length (ai : Nat → AIResult) (log : LogFile) (now : Nat) :
    ∀ k base, (bestWalkRuns ai log now k base).length = k := by
  intro k
  induction k with
  | zero => intro base; rfl
  | succ k ih => intro base; simp [bestWalkRuns, ih]

theorem bestWalkRuns_mem (ai : Nat → AIResult) (log : LogFile) (now : Nat) :
    ∀ k base r, r ∈ bestWalkRuns ai log now k base →
      ∃ ai2, r = generateWalk ai2 log now 5 1 := by
  intro k
  induction k with
  | zero => intro base r h; simp [bestWalkRuns] at h
  | succ k ih =>
    intro base r h
    simp only [bestWalkRuns, List.mem_cons] at h
    rcases h with h | h
    · exact ⟨fun m => ai (base + m), h⟩
    · exact ih _ r h

theorem generateBestWalkLoop_eq (ai : Nat → AIResult) (log : LogFile) (now : Nat) :
    ∀ k base acc,
      generateBestWalkLoop ai log now k base acc =
        acc ++ (bestWalkRuns ai log now k base).filterMap (fun r => r.1.toOption) := by
  intro k
  induction k with
  | zero => intro base acc; simp [generateBestWalkLoop, bestWalkRuns]
  | succ k ih =>
    intro base acc
    simp only [generateBestWalkLoop, bestWalkRuns, List.filterMap_cons]
    cases hr : (generateWalk (fun m => ai (base + m)) log now 5 1).1 with
    | ok w => simp only [hr, Except.toOption, ih, List.append_assoc, List.singleton_append]
    | error e => simp only [hr, Except.toOption, ih]

theorem filterMap_toOption_nil {ε α : Type} (l : List (Except ε α × Nat))
    (h : ∀ r ∈ l, r.1.isOk = false) :
    l.filterMap (fun r => r.1.toOption) = [] := by
  induction l with
  | nil => rfl
  | cons r rest ih =>
    have hr := h r (List.mem_cons_self r rest)
    cases hrr : r.1 with
    | ok a => rw [hrr] at hr; exact absurd hr (by simp [Except.isOk, Except.toBool])
    | error e =>
      simp only [List.filterMap_cons, hrr, Except.toOption]
      exact ih fun s hs => h s (List.mem_cons_of_mem r hs)

theorem generateBestWalk_all_fail (ai : Nat → AIResult) (log : LogFile) (now n : Nat)
    (h : ∀ r ∈ bestWalkRuns ai log now n 0, r.1.isOk = false) :
    generateBestWalk ai log now n = .error .allOptionsExhausted := by
  unfold generateBestWalk
  rw [generateBestWalkLoop_eq, List.nil_append, filterMap_toOption_nil _ h]

theorem generateBestWalk_first_success (ai : Nat → AIResult) (log : LogFile) (now n : Nat)
    (w : Walk) (rest : List Walk)
    (h : (bestWalkRuns ai log now n 0).filterMap (fun r => r.1.toOption) = w :: rest) :
    generateBestWalk ai log now n = .ok w := by
  unfold generateBestWalk
  rw [generateBestWalkLoop_eq, List.nil_append, h]

theorem generateBestWalk_ok_pub (ai : Nat → AIResult) (log : LogFile) (now n : Nat)
    (w : Walk) (h : generateBestWalk ai log now n = .ok w) :
    (∃ p, w.data.end_pub_name = some p ∧ p ≠ "" ∧ p ∉ getUsedPubs log) ∧
    w.data.location_coords.isSome = true := by
  unfold generateBestWalk at h
  rw [generateBestWalkLoop_eq, List.nil_append] at h
  cases hm : (bestWalkRuns ai log now n 0).filterMap (fun r => r.1.toOption) with
  | nil => rw [hm] at h; exact Except.noConfusion h
  | cons w1 rest =>
    rw [hm] at h
    injection h with hww
    rw [← hww]
    have hmem : w1 ∈ (bestWalkRuns ai log now n 0).filterMap (fun r => r.1.toOption) := by
      rw [hm]; exact List.mem_cons_self _ _
    rcases List.mem_filterMap.1 hmem with ⟨r, hr, hro⟩
    have hok : r.1 = .ok w1 := by
      cases hrr : r.1 with
      | ok a => rw [hrr] at hro; simp [Except.toOption] at hro; rw [hro]
      | error e => rw [hrr] at hro; exact Option.noConfusion hro
    rcases bestWalkRuns_mem ai log now n 0 r hr with ⟨ai2, hai2⟩
    have hax : (generateWalkAux ai2 log now 5 1).1 = .ok w1 := by
      have h2 := hai2 ▸ hok
      simpa [generateWalk] using h2
    exact generateWalkAux_ok_pub ai2 log now 5 1 w1 hax

end SundayPubWalks

namespace SundayPubWalks

/-- A readable log whose lines are all well formed. -/
def logWellFormed (log : LogFile) : Prop :=
  ∀ ls, log = some ls → ∀ l ∈ ls, lineMalformed l = false

theorem logWellFormed_append (e : PostLogEntry) (log : LogFile)
    (h : logWellFormed log) : logWellFormed (appendLog e log) := by
  cases log with
  | none =>
    intro ls hls l hl
    simp only [appendLog] at hls
    injection hls with hls2
    subst hls2
    simp at hl
    subst hl
    rfl
  | some ls0 =>
    intro ls hls l hl
    simp only [appendLog] at hls
    injection hls with hls2
    subst hls2
    rcases List.mem_append.1 hl with h1 | h1
    · exact h ls0 rfl l h1
    · simp at h1
      subst h1
      rfl

theorem logPubNames_append (e : PostLogEntry) (log : LogFile) :
    logPubNames (appendLog e log) = logPubNames log ++ e.pubName.toList := by
  cases log with
  | none =>
    cases hp : e.pubName <;>
      simp [appendLog, logPubNames, lineEntry, hp, Option.toList]
  | some ls =>
    cases hp : e.pubName <;>
      simp [appendLog, logPubNames, lineEntry, hp, Option.toList,
        List.filterMap_append]

theorem mem_getUsedPubs_iff (ls : List LogLine)
    (hwf : ∀ l ∈ ls, lineMalformed l = false) (p : String) (hpne : p ≠ "") :
    p ∈ getUsedPubs (some ls) ↔ p ∈ logPubNames (some ls) := by
  have hany : ls.any lineMalformed = false := by
    rw [List.any_eq_false]
    intro l hl
    simp [hwf l hl]
  simp only [getUsedPubs, logPubNames, hany, Bool.false_eq_true, if_false,
    mem_jsSetDedup, List.mem_filter]
  simp [hpne]

theorem fetchWeatherSummary_isOk (wenv : WeatherEnv) (walk : Walk)
    (h : walk.data.location_coords.isSome = true) :
    ∃ wthr, fetchWeatherSummary wenv walk = .ok wthr := by
  cases hlc : walk.data.location_coords with
  | none => rw [hlc] at h; exact absurd h (by simp)
  | some c =>
    unfold fetchWeatherSummary
    rw [hlc]
    exact ⟨_, rfl⟩

theorem publishSundayWalkPost_log_cases (env : RunEnv) (log : LogFile) :
    (publishSundayWalkPost env log).2 = log ∨
    ∃ w pr, generateBestWalk env.ai log env.now 1 = .ok w ∧
      postToInstagram env.igEnv = .ok pr ∧
      (publishSundayWalkPost env log).2 = appendLog (mkLogEntry env.nowIso w pr) log ∧
      ∃ p, w.data.end_pub_name = some p ∧ p ≠ "" ∧ p ∉ getUsedPubs log := by
  cases hg : generateBestWalk env.ai log env.now 1 with
  | error e => left; simp [publishSundayWalkPost, hg]
  | ok w =>
    rcases generateBestWalk_ok_pub env.ai log env.now 1 w hg with ⟨hpubinfo, hcoords⟩
    rcases fetchWeatherSummary_isOk env.weatherEnv w hcoords with ⟨wthr, hwthr⟩
    cases himg : env.imageResult with
    | error u => left; simp [publishSundayWalkPost, hg, hwthr, himg]
    | ok img =>
      by_cases hdev : env.nodeEnv = some "development"
      · cases hcw : env.captionWriteOk with
        | false => left; simp [publishSundayWalkPost, hg, hwthr, himg, hdev, hcw]
        | true => left; simp [publishSundayWalkPost, hg, hwthr, himg, hdev, hcw]
      · cases hpub : postToInstagram env.igEnv with
        | error pe => left; simp [publishSundayWalkPost, hg, hwthr, himg, hdev, hpub]
        | ok pr =>
          cases hap : env.appendOk with
          | false =>
            left
            simp [publishSundayWalkPost, logPost, hg, hwthr, himg, hdev, hpub, hap]
          | true =>
            right
            refine ⟨w, pr, rfl, rfl, ?_, ?_⟩
            · simp [publishSundayWalkPost, logPost, hg, hwthr, himg, hdev, hpub, hap]
            · exact hpubinfo

theorem run_preserves_inv (env : RunEnv) (log : LogFile)
    (hwf : logWellFormed log) (hnd : (logPubNames log).Nodup) :
    logWellFormed (publishSundayWalkPost env log).2 ∧
      (logPubNames (publishSundayWalkPost env log).2).Nodup := by
  rcases publishSundayWalkPost_log_cases env log with
    hsame | ⟨w, pr, hgw, hpub, hlog2, p, hp, hpne, hnot⟩
  · rw [hsame]; exact ⟨hwf, hnd⟩
  · rw [hlog2]
    refine ⟨logWellFormed_append _ _ hwf, ?_⟩
    rw [logPubNames_append]
    have hpn : (mkLogEntry env.nowIso w pr).pubName = some p := by
      simp [mkLogEntry, hp]
    rw [hpn]
    have hnotlog : p ∉ logPubNames log := by
      cases log with
      | none => simp [logPubNames]
      | some ls =>
        intro hmem
        exact hnot ((mem_getUsedPubs_iff ls (hwf ls rfl) p hpne).2 hmem)
    rw [List.nodup_append]
    refine ⟨hnd, by simp, ?_⟩
    intro a ha hb
    simp [Option.toList] at hb
    subst hb
    exact hnotlog ha

theorem runAll_inv (envs : List RunEnv) :
    ∀ log, logWellFormed log → (logPubNames log).Nodup →
      logWellFormed (runAll envs log) ∧ (logPubNames (runAll envs log)).Nodup := by
  induction envs with
  | nil => intro log h1 h2; exact ⟨h1, h2⟩
  | cons env rest ih =>
    intro log h1 h2
    simp only [runAll]
    have hstep := run_preserves_inv env log h1 h2
    exact ih _ hstep.1 hstep.2

end SundayPubWalks

/-! ## Claim theorems -/

namespace SundayPubWalks

/-- C1: Dedup invariant. In the sequential execution model, every sequence
of pipeline runs starting from an absent log leaves a log whose entries
carry pairwise distinct pubName values; moreover any single run either
leaves the log unchanged or, only when the publish call succeeded, appends
exactly one entry whose pub name was absent from the used-pub set read
from the log during that run. -/
theorem post_log_dedup_invariant :
    (∀ envs : List RunEnv, (logPubNames (runAll envs none)).Nodup) ∧
    (∀ (env : RunEnv) (log : LogFile),
      (publishSundayWalkPost env log).2 = log ∨
      ∃ w pr, generateBestWalk env.ai log env.now 1 = .ok w ∧
        postToInstagram env.igEnv = .ok pr ∧
        (publishSundayWalkPost env log).2 =
          appendLog (mkLogEntry env.nowIso w pr) log ∧
        ∃ p, w.data.end_pub_name = some p ∧ p ≠ "" ∧ p ∉ getUsedPubs log) := by
  constructor
  · intro envs
    exact (runAll_inv envs none (fun ls h => Option.noConfusion h)
      (by simp [logPubNames])).2
  · exact publishSundayWalkPost_log_cases

/-- C2: generateWalk makes at most k AI calls; on success the returned
proposal's pub name is absent from the used-pub set read from the log; and
against a stub AI collaborator that always returns an already-used pub
name it fails with the exhausted-retries error after exactly k AI calls. -/
theorem generateWalk_retry_contract (ai : Nat → AIResult) (log : LogFile)
    (now k : Nat) :
    (generateWalk ai log now k 1).2 ≤ k ∧
    (∀ w, (generateWalk ai log now k 1).1 = .ok w →
      ∃ p, w.data.end_pub_name = some p ∧ p ∉ getUsedPubs log) ∧
    ((∀ n, 1 ≤ n → n ≤ k →
        ∃ wd p, ai n = .ok wd ∧ wd.end_pub_name = some p ∧ p ∈ getUsedPubs log) →
      generateWalk ai log now k 1 = (.error .exhaustedRetries, k)) := by
  unfold generateWalk
  have hfuel : k + 1 - 1 = k := by omega
  rw [hfuel]
  refine ⟨generateWalkAux_calls_le ai log now k 1, ?_, ?_⟩
  · intro w h
    rcases generateWalkAux_ok_pub ai log now k 1 w h with ⟨⟨p, h1, _, h3⟩, _⟩
    exact ⟨p, h1, h3⟩
  · intro hstub
    exact generateWalkAux_all_used ai log now k 1 (by
      intro n h1 h2
      exact hstub n h1 (by omega))

theorem generateWalk_retry_contract_witness :
    (∀ n, 1 ≤ n → n ≤ 5 →
      ∃ wd p, aiConst (wdOf "The Crown") n = .ok wd ∧
        wd.end_pub_name = some p ∧ p ∈ getUsedPubs logCrown) ∧
    generateWalk (aiConst (wdOf "The Crown")) logCrown 0 5 1 =
      (.error .exhaustedRetries, 5) ∧
    (generateWalk (aiConst (wdOf "The Crown")) logCrown 0 5 1).2 ≤ 5 := by
  have hstub : ∀ n, 1 ≤ n → n ≤ 5 →
      ∃ wd p, aiConst (wdOf "The Crown") n = .ok wd ∧
        wd.end_pub_name = some p ∧ p ∈ getUsedPubs logCrown := by
    intro n _ _
    exact ⟨wdOf "The Crown", "The Crown", rfl, rfl, by decide⟩
  exact ⟨hstub,
    (generateWalk_retry_contract (aiConst (wdOf "The Crown")) logCrown 0 5).2.2 hstub,
    (generateWalk_retry_contract (aiConst (wdOf "The Crown")) logCrown 0 5).1⟩

/-- C3 counterexample: a structurally invalid candidate (too few
highlights) whose pub name is already used does NOT fail immediately: the
used-pub check runs first, so the attempt takes the retry path and a
second AI call is made, which here succeeds. -/
theorem structural_validation_order_counterexample :
    formatWalkData 0 (wdInvalidOf "The Crown") = .error .tooFewHighlights ∧
    "The Crown" ∈ getUsedPubs logCrown ∧
    (generateWalk aiBadThenGood logCrown 0 5 1).2 = 2 ∧
    (generateWalk aiBadThenGood logCrown 0 5 1).1 = .ok (walkOf "The Anchor") := by
  exact ⟨rfl, by decide, rfl, rfl⟩

/-- C3 (amended): the used-pub membership check runs before structural
validation; a structurally invalid candidate whose pub name is NOT in the
used set fails the whole generateWalk invocation immediately with the
propagated validation error after exactly one AI call, never taking the
retry path. -/
theorem generateWalk_invalid_fresh_fails_fast (ai : Nat → AIResult)
    (log : LogFile) (now k : Nat) (wd : WalkData) (e : GenError)
    (hk : 1 ≤ k) (h1 : ai 1 = .ok wd)
    (hfresh : ∀ p, wd.end_pub_name = some p → p ∉ getUsedPubs log)
    (hinv : formatWalkData now wd = .error e) :
    generateWalk ai log now k 1 = (.error e, 1) := by
  unfold generateWalk
  obtain ⟨f, hf⟩ : ∃ f, k + 1 - 1 = f + 1 := ⟨k - 1, by omega⟩
  rw [hf]
  simp only [generateWalkAux, h1]
  have hcond : ¬ ((match wd.end_pub_name with
      | some q => (getUsedPubs log).contains q
      | none => false) = true) := by
    cases hpn : wd.end_pub_name with
    | none => simp
    | some q => simpa using hfresh q hpn
  rw [if_neg hcond]
  simp only [hinv]

theorem generateWalk_invalid_fresh_fails_fast_witness :
    (1 ≤ 5) ∧
    aiConst (wdInvalidOf "The Anchor") 1 = .ok (wdInvalidOf "The Anchor") ∧
    formatWalkData 0 (wdInvalidOf "The Anchor") = .error .tooFewHighlights ∧
    generateWalk (aiConst (wdInvalidOf "The Anchor")) logCrown 0 5 1 =
      (.error .tooFewHighlights, 1) := by
  refine ⟨by decide, rfl, rfl, ?_⟩
  exact generateWalk_invalid_fresh_fails_fast (aiConst (wdInvalidOf "The Anchor"))
    logCrown 0 5 (wdInvalidOf "The Anchor") .tooFewHighlights (by decide) rfl
    (by
      intro p hp
      have hpv : p = "The Anchor" := by
        have : some "The Anchor" = some p := hp
        injection this with h2
        exact h2.symm
      subst hpv
      decide)
    rfl

/-- C4: generateBestWalk runs the generator exactly n times regardless of
failures, returns the first successful proposal in attempt order when one
exists, and throws the all-options-exhausted error when every run fails. -/
theorem generateBestWalk_selector_contract (ai : Nat → AIResult)
    (log : LogFile) (now n : Nat) :
    (bestWalkRuns ai log now n 0).length = n ∧
    ((∀ r ∈ bestWalkRuns ai log now n 0, r.1.isOk = false) →
      generateBestWalk ai log now n = .error .allOptionsExhausted) ∧
    (∀ w rest,
      (bestWalkRuns ai log now n 0).filterMap (fun r => r.1.toOption) = w :: rest →
      generateBestWalk ai log now n = .ok w) :=
  ⟨bestWalkRuns_length ai log now n 0,
   generateBestWalk_all_fail ai log now n,
   fun w rest h => generateBestWalk_first_success ai log now n w rest h⟩

theorem generateBestWalk_selector_contract_witness :
    ((bestWalkRuns aiFailTwice none 0 3 0).filterMap (fun r => r.1.toOption) =
      [walkOf "The Anchor"]) ∧
    generateBestWalk aiFailTwice none 0 3 = .ok (walkOf "The Anchor") ∧
    (∀ r ∈ bestWalkRuns aiFail none 0 2 0, r.1.isOk = false) ∧
    generateBestWalk aiFail none 0 2 = .error .allOptionsExhausted := by
  refine ⟨rfl, ?_, by decide, ?_⟩
  · exact (generateBestWalk_selector_contract aiFailTwice none 0 3).2.2
      (walkOf "The Anchor") [] rfl
  · exact (generateBestWalk_selector_contract aiFail none 0 2).2.1 (by decide)

end SundayPubWalks

namespace SundayPubWalks

/-- C5: publish-failure atomicity. When generation, weather, caption and
image generation have succeeded and the run is not in development mode, a
failing publish step re-throws its error and leaves the log unchanged: no
entry is appended. -/
theorem publish_failure_atomicity (env : RunEnv) (log : LogFile)
    (pe : PublishError) (w : Walk) (img : ImageInfo)
    (hw : generateBestWalk env.ai log env.now 1 = .ok w)
    (himg : env.imageResult = .ok img)
    (hmode : env.nodeEnv ≠ some "development")
    (hpub : postToInstagram env.igEnv = .error pe) :
    publishSundayWalkPost env log = (.error (.publish pe), log) := by
  rcases generateBestWalk_ok_pub env.ai log env.now 1 w hw with ⟨_, hcoords⟩
  rcases fetchWeatherSummary_isOk env.weatherEnv w hcoords with ⟨wthr, hwthr⟩
  simp [publishSundayWalkPost, hw, hwthr, himg, hmode, hpub]

theorem publish_failure_atomicity_witness :
    generateBestWalk (envOf (some "production") igEnvFail).ai logCrown
      (envOf (some "production") igEnvFail).now 1 = .ok (walkOf "The Anchor") ∧
    (envOf (some "production") igEnvFail).imageResult = .ok image0 ∧
    (envOf (some "production") igEnvFail).nodeEnv ≠ some "development" ∧
    postToInstagram (envOf (some "production") igEnvFail).igEnv =
      .error .createFailed ∧
    publishSundayWalkPost (envOf (some "production") igEnvFail) logCrown =
      (.error (.publish .createFailed), logCrown) := by
  refine ⟨rfl, rfl, by decide, rfl, ?_⟩
  exact publish_failure_atomicity (envOf (some "production") igEnvFail) logCrown
    .createFailed (walkOf "The Anchor") image0 rfl rfl (by decide) rfl

/-- C6: in development mode the pipeline never touches the log — any run,
succeeding or failing at any step (including a rejected caption-file
write), leaves the log exactly as it was — and on a fully successful
generation, image and caption-write path it returns the development
success result without publishing. -/
theorem development_mode_never_logs (env : RunEnv) (log : LogFile)
    (hmode : env.nodeEnv = some "development") :
    (publishSundayWalkPost env log).2 = log ∧
    ∀ w img, generateBestWalk env.ai log env.now 1 = .ok w →
      env.imageResult = .ok img → env.captionWriteOk = true →
      (publishSundayWalkPost env log).1 =
        .ok (.development w.data.walk_title img.localPath) := by
  constructor
  · cases hg : generateBestWalk env.ai log env.now 1 with
    | error e => simp [publishSundayWalkPost, hg]
    | ok w =>
      rcases generateBestWalk_ok_pub env.ai log env.now 1 w hg with ⟨_, hcoords⟩
      rcases fetchWeatherSummary_isOk env.weatherEnv w hcoords with ⟨wthr, hwthr⟩
      cases himg : env.imageResult with
      | error u => simp [publishSundayWalkPost, hg, hwthr, himg]
      | ok img =>
        cases hcw : env.captionWriteOk with
        | false => simp [publishSundayWalkPost, hg, hwthr, himg, hmode, hcw]
        | true => simp [publishSundayWalkPost, hg, hwthr, himg, hmode, hcw]
  · intro w img hw himg hcw
    rcases generateBestWalk_ok_pub env.ai log env.now 1 w hw with ⟨_, hcoords⟩
    rcases fetchWeatherSummary_isOk env.weatherEnv w hcoords with ⟨wthr, hwthr⟩
    simp [publishSundayWalkPost, hw, hwthr, himg, hmode, hcw]

theorem development_mode_never_logs_witness :
    (envOf (some "development") igEnvOk).nodeEnv = some "development" ∧
    (publishSundayWalkPost (envOf (some "development") igEnvOk) logCrown).2 =
      logCrown ∧
    (publishSundayWalkPost (envOf (some "development") igEnvOk) logCrown).1 =
      .ok (.development (some "Heath to Hearth") "generated/walk.png") :=
  ⟨rfl,
   (development_mode_never_logs (envOf (some "development") igEnvOk) logCrown rfl).1,
   (development_mode_never_logs (envOf (some "development") igEnvOk) logCrown rfl).2
     (walkOf "The Anchor") image0 rfl rfl rfl⟩

/-- C9: the development path is taken exactly when NODE_ENV equals the
string development: on that value a successful run (with the caption-file
write succeeding) stops before publishing with the log untouched, and on
every other value a successful run publishes and, when the publish
succeeds and the append does not fail, appends one log entry. -/
theorem node_env_development_gate (env : RunEnv) (log : LogFile) (w : Walk)
    (img : ImageInfo) (pr : PubResult)
    (hw : generateBestWalk env.ai log env.now 1 = .ok w)
    (himg : env.imageResult = .ok img) :
    (env.nodeEnv = some "development" → env.captionWriteOk = true →
      publishSundayWalkPost env log =
        (.ok (.development w.data.walk_title img.localPath), log)) ∧
    (env.nodeEnv ≠ some "development" → postToInstagram env.igEnv = .ok pr →
      env.appendOk = true →
      publishSundayWalkPost env log =
        (.ok (.production w.data.walk_title pr.id),
          appendLog (mkLogEntry env.nowIso w pr) log)) := by
  rcases generateBestWalk_ok_pub env.ai log env.now 1 w hw with ⟨_, hcoords⟩
  rcases fetchWeatherSummary_isOk env.weatherEnv w hcoords with ⟨wthr, hwthr⟩
  constructor
  · intro hdev hcw
    simp [publishSundayWalkPost, hw, hwthr, himg, hdev, hcw]
  · intro hdev hpub hap
    simp [publishSundayWalkPost, logPost, hw, hwthr, himg, hdev, hpub, hap]

theorem node_env_development_gate_witness :
    generateBestWalk (envOf (some "dev") igEnvOk).ai none
      (envOf (some "dev") igEnvOk).now 1 = .ok (walkOf "The Anchor") ∧
    (envOf (some "dev") igEnvOk).nodeEnv ≠ some "development" ∧
    postToInstagram (envOf (some "dev") igEnvOk).igEnv = .ok { id := "post-1" } ∧
    publishSundayWalkPost (envOf (some "dev") igEnvOk) none =
      (.ok (.production (some "Heath to Hearth") "post-1"),
        appendLog
          (mkLogEntry "2026-01-04T10:05:00Z" (walkOf "The Anchor") { id := "post-1" })
          none) := by
  refine ⟨rfl, by decide, rfl, ?_⟩
  exact (node_env_development_gate (envOf (some "dev") igEnvOk) none
    (walkOf "The Anchor") image0 { id := "post-1" } rfl rfl).2 (by decide) rfl rfl

/-- C7: log append and read round trip. Appending The Crown then The
Anchor to an absent log makes the used-pub set read back exactly those two
names, both members; reading an absent log yields the empty set rather
than failing. -/
theorem log_append_read_roundtrip :
    getUsedPubs (appendLog anchorEntry (appendLog crownEntry none)) =
      ["The Crown", "The Anchor"] ∧
    "The Crown" ∈ getUsedPubs (appendLog anchorEntry (appendLog crownEntry none)) ∧
    "The Anchor" ∈ getUsedPubs (appendLog anchorEntry (appendLog crownEntry none)) ∧
    getUsedPubs none = [] := by
  exact ⟨rfl, by decide, by decide, rfl⟩

/-- C8: the deduplication gate compares pub names by exact string
equality: an attempt with a single remaining try is rejected with the
exhausted-retries error exactly when the candidate pub name is literally a
member of the used set, and otherwise the candidate proceeds straight to
validation. -/
theorem dedup_exact_string_match (ai : Nat → AIResult) (log : LogFile)
    (now : Nat) (wd : WalkData) (p : String)
    (h1 : ai 1 = .ok wd) (hp : wd.end_pub_name = some p) :
    (p ∈ getUsedPubs log →
      generateWalk ai log now 1 1 = (.error .exhaustedRetries, 1)) ∧
    (p ∉ getUsedPubs log →
      generateWalk ai log now 1 1 = (formatWalkData now wd, 1)) ∧
    (generateWalk ai log now 1 1 = (.error .exhaustedRetries, 1) →
      p ∈ getUsedPubs log) := by
  have hcond : (match wd.end_pub_name with
      | some q => (getUsedPubs log).contains q
      | none => false) = (getUsedPubs log).contains p := by
    rw [hp]
  refine ⟨?_, ?_, ?_⟩
  · intro hmem
    unfold generateWalk
    simp only [generateWalkAux, h1]
    rw [hcond, if_pos (by simpa using hmem)]
  · intro hmem
    unfold generateWalk
    simp only [generateWalkAux, h1]
    rw [hcond, if_neg (by simpa using hmem)]
    cases hfw : formatWalkData now wd <;> simp [hfw]
  · intro hres
    by_cases hmem : p ∈ getUsedPubs log
    · exact hmem
    · exfalso
      have h2 : generateWalk ai log now 1 1 = (formatWalkData now wd, 1) := by
        unfold generateWalk
        simp only [generateWalkAux, h1]
        rw [hcond, if_neg (by simpa using hmem)]
        cases hfw : formatWalkData now wd <;> simp [hfw]
      rw [h2] at hres
      have h3 : formatWalkData now wd = .error .exhaustedRetries := by
        injection hres with h4 h5
      rcases formatWalkData_inv now wd _ h3 with ⟨w2, hw2, _, _⟩ | ⟨e, he, hne, _, _⟩
      · exact Except.noConfusion hw2
      · injection he with he2
        exact hne he2.symm

theorem dedup_exact_string_match_witness :
    ("the crown" ∉ getUsedPubs logCrown) ∧
    ("The Crown" ∈ getUsedPubs logCrown) ∧
    generateWalk (aiConst (wdOf "the crown")) logCrown 0 1 1 =
      (formatWalkData 0 (wdOf "the crown"), 1) ∧
    generateWalk (aiConst (wdOf "The Crown")) logCrown 0 1 1 =
      (.error .exhaustedRetries, 1) :=
  ⟨by decide, by decide,
   (dedup_exact_string_match (aiConst (wdOf "the crown")) logCrown 0
     (wdOf "the crown") "the crown" rfl rfl).2.1 (by decide),
   (dedup_exact_string_match (aiConst (wdOf "The Crown")) logCrown 0
     (wdOf "The Crown") "The Crown" rfl rfl).1 (by decide)⟩

/-- C10: the used-pub read is total and never propagates a failure: an
unreadable or absent log yields the empty used-pub set, and so does a
readable log containing any malformed line, disabling deduplication for
that attempt instead of failing it. -/
theorem getUsedPubs_read_failure_empty :
    getUsedPubs none = [] ∧
    ∀ ls : List LogLine, ls.any lineMalformed = true →
      getUsedPubs (some ls) = [] := by
  refine ⟨rfl, ?_⟩
  intro ls h
  simp [getUsedPubs, h]

theorem getUsedPubs_read_failure_empty_witness :
    ([LogLine.malformed, .entry crownEntry].any lineMalformed = true) ∧
    getUsedPubs (some [LogLine.malformed, .entry crownEntry]) = [] :=
  ⟨rfl, getUsedPubs_read_failure_empty.2 [LogLine.malformed, .entry crownEntry] rfl⟩

end SundayPubWalks
